import Mathlib

/-!
# ipstack-go: a shallow embedding of the API client and of the `ip2loc` line printer

The Go package `ipstack` (ipstack.go) and the function `printRes` of
`cmd/ip2loc/main.go` are translated into Lean definitions.

* Go values of type `error` are `Option GoError` (`nil` is `none`).
* A Go function returning `(v, err)` returns a pair here.
* Byte slices (`[]byte`) that hold HTTP bodies are strings.
* What the code obtains from the Go standard library and from the network
  (`http.NewRequest`, `url.ParseQuery`, `httpClient.Do`, `ioutil.ReadAll`,
  `json.Unmarshal`) is not part of the repository: it is supplied by an
  environment `Env`, over which the theorems quantify.
* Of the parsing of the URL text by `http.NewRequest` the model keeps how the
  text is cut: what follows the first "#" is the fragment, which is not sent,
  and, before it, what follows the first "?" is the raw query. Scheme, host
  and path are kept together, as written.
* A Go map is an association list; where the source ranges over a map, the
  list is walked in insertion order (the keys are distinct, so the order of
  the walk does not change the values each key ends up with).
* A run keeps a log of the calls of `Client.get`, of the requests handed to
  the transport and of the closing of response bodies, and ends either with
  the returned values or with the run-time fault of a nil pointer dereference.
-/

namespace ipstack

/-! ## Constants -/

def apiBaseURL : String := "https://api.ipstack.com"

/-- free plan doesn't support https yet -/
def apiBaseURLFree : String := "http://api.ipstack.com"

/-! ## Data model -/

/-- A non-nil Go `error`, known by the text its `Error()` method returns. -/
structure GoError where
  msg : String
  deriving DecidableEq, Repr

/-- A `float32`, kept as its IEEE-754 bit pattern (the zero value is `+0`). -/
structure float32 where
  bits : Nat := 0
  deriving DecidableEq, Repr

/-- The anonymous struct of the field `Error` of `ResponseError`. -/
structure ErrorBody where
  Code : Int := 0
  Type_ : String := ""
  Info : String := ""
  deriving DecidableEq, Repr

/-- ResponseError for response error -/
structure ResponseError where
  Success : Bool := false
  Error : ErrorBody := {}
  deriving DecidableEq, Repr

/-- An element of `Location.Languages`. -/
structure Language where
  Code : String := ""
  Name : String := ""
  Native : String := ""
  deriving DecidableEq, Repr

structure Location where
  GeonameID : Int := 0
  Capital : String := ""
  Languages : List Language := []
  CountryFlag : String := ""
  CountryFlagEmoji : String := ""
  CountryFlagEmojiUnicode : String := ""
  CallingCode : String := ""
  IsEU : Bool := false
  deriving DecidableEq, Repr

structure Timezone where
  ID : String := ""
  CurrentTime : String := ""
  GMTOffset : Int := 0
  Code : String := ""
  IsDaylightSaving : Bool := false
  deriving DecidableEq, Repr

structure Currency where
  Code : String := ""
  Name : String := ""
  Plural : String := ""
  Symbol : String := ""
  SymbolNative : String := ""
  deriving DecidableEq, Repr

structure Connection where
  ASN : String := ""
  ISP : String := ""
  deriving DecidableEq, Repr

structure Security where
  IsProxy : Bool := false
  ProxyType : String := ""
  IsCrawler : Bool := false
  CrawlerName : String := ""
  CrawlerType : String := ""
  IsTor : Bool := false
  ThreatLevel : String := ""
  ThreatTypes : List String := []
  deriving DecidableEq, Repr

/-- Response for responses; `ResponseError` is embedded, so that
`response.Error.Code` reads the embedded error code. `{}` is the Go zero
value `Response{}`. -/
structure Response extends ResponseError where
  IP : String := ""
  Hostname : String := ""
  Type_ : String := ""
  ContinentCode : String := ""
  ContinentName : String := ""
  CountryCode : String := ""
  CountryName : String := ""
  RegionCode : String := ""
  RegionName : String := ""
  City : String := ""
  Zip : String := ""
  Latitude : float32 := {}
  Longitude : float32 := {}
  Location : Location := {}
  Timezone : Timezone := {}
  Currency : Currency := {}
  Connection : Connection := {}
  Security : Security := {}
  deriving DecidableEq, Repr

/-- The timeouts of the `http.Transport` a client owns, in nanoseconds. -/
structure Transport where
  DialTimeout : Int
  DialKeepAlive : Int
  IdleConnTimeout : Int
  TLSHandshakeTimeout : Int
  ResponseHeaderTimeout : Int
  ExpectContinueTimeout : Int
  deriving DecidableEq, Repr

/-- Client struct -/
structure Client where
  free : Bool
  accessKey : String
  httpClient : Transport
  deriving DecidableEq, Repr

/-- One `time.Second`, in nanoseconds. -/
def Second : Int := 1000000000

/-- NewClient returns a new client -/
def NewClient (accessKey : String) (isFreePlan : Bool) : Client :=
  { free := isFreePlan
    accessKey := accessKey
    httpClient :=
      { DialTimeout := 10 * Second
        DialKeepAlive := 300 * Second
        IdleConnTimeout := 90 * Second
        TLSHandshakeTimeout := 10 * Second
        ResponseHeaderTimeout := 10 * Second
        ExpectContinueTimeout := 1 * Second } }

/-! ## Requests, responses and the environment -/

/-- A value stored in the `map[string]interface{}` of parameters. -/
inductive Value where
  | str (s : String)
  | int (n : Int)
  deriving DecidableEq, Repr

/-- The text of `fmt.Sprintf("%v", value)`. -/
def Value.format : Value → String
  | .str s => s
  | .int n => toString n

/-- A Go map with string keys, as an association list with distinct keys. -/
abbrev GoMap (β : Type) := List (String × β)

/-- The assignment `m[k] = v`. -/
def GoMap.set {β : Type} : GoMap β → String → β → GoMap β
  | [], k, v => [(k, v)]
  | (k0, v0) :: rest, k, v =>
    if k0 = k then (k, v) :: rest else (k0, v0) :: GoMap.set rest k v

/-- The type `url.Values`: keys with their values, in the order of the `Add` calls. -/
abbrev Values := List (String × String)

/-- The request as the transport sends it: method, scheme, host and path of
`req.URL` (the URL text up to its query and fragment), the headers, and the
`url.Values` that `req.URL.RawQuery` encodes. The fragment of `req.URL` is not
sent and is left out. -/
structure Request where
  Method : String
  URL : String
  Header : GoMap String
  Query : Values
  deriving DecidableEq, Repr

/-- A non-nil `*http.Response`: its status code and what `ioutil.ReadAll`
yields on its body. -/
structure HTTPResponse where
  StatusCode : Int
  Body : String × Option GoError
  deriving DecidableEq, Repr

/-- The standard library and the network, as the code sees them. -/
structure Env where
  /-- The error of `http.NewRequest("GET", apiURL, nil)`, `none` when the URL parses -/
  NewRequest : String → Option GoError
  /-- The values `url.ParseQuery` finds in a raw query that is not empty -/
  ParseQuery : String → Values
  /-- The canonical form `req.Header.Set` gives a header key -/
  CanonicalHeaderKey : String → String
  /-- The pair `(resp, err)` of `c.httpClient.Do(req)`; `resp` may be nil -/
  Do : Request → Option HTTPResponse × Option GoError
  /-- The decoding `json.Unmarshal(bytes, &response)` with `response` a `Response` -/
  UnmarshalResponse : String → Response × Option GoError
  /-- The decoding `json.Unmarshal(bytes, &response)` with `response` a `[]Response` -/
  UnmarshalResponses : String → List Response × Option GoError
  /-- The decoding `json.Unmarshal(bytes, &errRes)` with `errRes` a `ResponseError` -/
  UnmarshalResponseError : String → ResponseError × Option GoError

/-- What a run leaves behind, in order. -/
inductive Event where
  /-- `Client.get` was entered with this `apiURL` -/
  | get (apiURL : String)
  /-- this request was handed to `c.httpClient.Do` -/
  | Do (req : Request)
  /-- the deferred `resp.Body.Close()` ran -/
  | Close
  deriving DecidableEq, Repr

/-- A run-time fault, which ends the run without a returned value. -/
inductive Fault where
  | nilPointerDereference
  deriving DecidableEq, Repr

/-- A run: its log and how it ended. -/
structure Ran (α : Type) where
  log : List Event
  out : Except Fault α

/-- The requests a run handed to the transport. -/
def Ran.requests {α : Type} (r : Ran α) : List Request :=
  r.log.filterMap fun e => match e with
    | .Do req => some req
    | _ => none

/-- The URLs with which a run entered `Client.get`. -/
def Ran.urls {α : Type} (r : Ran α) : List String :=
  r.log.filterMap fun e => match e with
    | .get u => some u
    | _ => none

end ipstack

/-! ## Functions of the package `strings` -/

namespace strings

/-- The function `strings.Join(elems, sep)`. -/
def Join : List String → String → String
  | [], _ => ""
  | [a], _ => a
  | a :: b :: rest, sep => a ++ sep ++ Join (b :: rest) sep

/-- The function `strings.Cut(s, sep)` for a separator of one character: the
text before the first occurrence of the separator and the text after it; the
whole text and nothing when the separator does not occur. -/
def Cut (sep : Char) : List Char → List Char × List Char
  | [] => ([], [])
  | ch :: rest =>
    if ch = sep then ([], rest) else (ch :: (Cut sep rest).1, (Cut sep rest).2)

end strings

/-! ## Functions of the package `net/url` -/

namespace url

/-- The parts into which `url.Parse` cuts the text of a URL. -/
structure URL where
  /-- scheme, host and path, as written -/
  SchemeHostPath : String
  /-- the text after the first "?", up to the fragment -/
  RawQuery : String
  /-- the text after the first "#" -/
  Fragment : String
  deriving DecidableEq, Repr

/-- The cutting of `url.Parse`: first the fragment is cut off at the first
"#", then the raw query at the first "?" of what is left. -/
def Parse (rawURL : String) : URL :=
  let u := strings.Cut '#' rawURL.data
  let rest := strings.Cut '?' u.1
  { SchemeHostPath := String.mk rest.1
    RawQuery := String.mk rest.2
    Fragment := String.mk u.2 }

end url

namespace ipstack

/-! ## The client -/

/-- The default parameters of `get` (set default params). -/
def Client.params (c : Client) (params : Option (GoMap Value)) : GoMap Value :=
  let params := match params with
    | none => []
    | some p => p
  let params := GoMap.set params "access_key" (.str c.accessKey)
  let params := GoMap.set params "hostname" (.int 1)
  let params := GoMap.set params "output" (.str "json")
  if !c.free then GoMap.set params "security" (.int 1) else params

/-- The values of `req.URL.Query()` for a raw query: none when it is empty
(the loop of `url.ParseQuery` runs while the query is not empty), and
otherwise what the library finds in it. -/
def Env.Query (env : Env) (rawQuery : String) : Values :=
  if rawQuery = "" then [] else env.ParseQuery rawQuery

/-- The request `get` builds once `http.NewRequest` has parsed the URL: the
headers are set, and every parameter is added to the values of the URL's own
query; the result replaces the raw query. -/
def Client.request (env : Env) (c : Client) (apiURL : String)
    (headers : GoMap String) (params : Option (GoMap Value)) : Request :=
  { Method := "GET"
    URL := (url.Parse apiURL).SchemeHostPath
    Header := headers.foldl (fun h kv => GoMap.set h (env.CanonicalHeaderKey kv.1) kv.2) []
    Query := (c.params params).foldl (fun q kv => q ++ [(kv.1, kv.2.format)])
      (env.Query (url.Parse apiURL).RawQuery) }

/-- HTTP GET. The error that `Do` returns next to the response is overwritten
by the one of `ioutil.ReadAll`, as in the source; `resp.Body` is read whether
or not `resp` is nil. -/
def Client.get (env : Env) (c : Client) (apiURL : String)
    (headers : GoMap String) (params : Option (GoMap Value)) : Ran (String × Option GoError) :=
  match env.NewRequest apiURL with
  | some err => ⟨[.get apiURL], .ok ("", some err)⟩
  | none =>
    let req := c.request env apiURL headers params
    -- resp, err = c.httpClient.Do(req)
    match (env.Do req).1 with
    | none =>
      -- no Close is deferred; ioutil.ReadAll(resp.Body) reads a field of the nil resp
      ⟨[.get apiURL, .Do req], .error .nilPointerDereference⟩
    | some resp =>
      -- defer resp.Body.Close(); bytes, err = ioutil.ReadAll(resp.Body)
      match resp.Body.2 with
      | none =>
        if resp.StatusCode = 200 then
          ⟨[.get apiURL, .Do req, .Close], .ok (resp.Body.1, none)⟩
        else
          -- return []byte{}, err with err == nil
          ⟨[.get apiURL, .Do req, .Close], .ok ("", none)⟩
      | some err => ⟨[.get apiURL, .Do req, .Close], .ok ("", some err)⟩

/-- The error `fmt.Errorf("error %d: %s (%s)", e.Code, e.Type, e.Info)`. -/
def serviceError (e : ErrorBody) : GoError :=
  ⟨"error " ++ toString e.Code ++ ": " ++ e.Type_ ++ " (" ++ e.Info ++ ")"⟩

/-- LookupStandard requests standard lookup -/
def Client.LookupStandard (env : Env) (c : Client) (ip : String) : Ran (Response × Option GoError) :=
  let url := if c.free then apiBaseURLFree ++ "/" ++ ip else apiBaseURL ++ "/" ++ ip
  let r := c.get env url [] (some [])
  match r.out with
  | .error f => ⟨r.log, .error f⟩
  | .ok (bytes, none) =>
    match env.UnmarshalResponse bytes with
    | (response, none) =>
      if response.Error.Code > 0 then
        ⟨r.log, .ok ({}, some (serviceError response.Error))⟩
      else
        ⟨r.log, .ok (response, none)⟩
    | (_, some err) => ⟨r.log, .ok ({}, some err)⟩
  | .ok (_, some err) => ⟨r.log, .ok ({}, some err)⟩

/-- LookupBulk requests bulk lookup (not supported for free plan) -/
def Client.LookupBulk (env : Env) (c : Client) (ips : List String) : Ran (List Response × Option GoError) :=
  if c.free then
    ⟨[], .ok ([], some ⟨"free plan does not support bulk lookup"⟩)⟩
  else
    let url := apiBaseURL ++ "/" ++ strings.Join ips ","
    let r := c.get env url [] (some [])
    match r.out with
    | .error f => ⟨r.log, .error f⟩
    | .ok (bytes, none) =>
      match env.UnmarshalResponses bytes with
      | (response, none) => ⟨r.log, .ok (response, none)⟩
      | (_, some _) =>
        match env.UnmarshalResponseError bytes with
        | (errRes, none) => ⟨r.log, .ok ([], some (serviceError errRes.Error))⟩
        | (_, some err) => ⟨r.log, .ok ([], some err)⟩
    | .ok (_, some err) => ⟨r.log, .ok ([], some err)⟩

/-- LookupRequester requests lookup for this requester -/
def Client.LookupRequester (env : Env) (c : Client) : Ran (Response × Option GoError) :=
  let url := if c.free then apiBaseURLFree ++ "/check" else apiBaseURL ++ "/check"
  let r := c.get env url [] (some [])
  match r.out with
  | .error f => ⟨r.log, .error f⟩
  | .ok (bytes, none) =>
    match env.UnmarshalResponse bytes with
    | (response, none) =>
      if response.Error.Code > 0 then
        ⟨r.log, .ok ({}, some (serviceError response.Error))⟩
      else
        ⟨r.log, .ok (response, none)⟩
    | (_, some err) => ⟨r.log, .ok ({}, some err)⟩
  | .ok (_, some err) => ⟨r.log, .ok ({}, some err)⟩

end ipstack

/-! ## The command `ip2loc` -/

namespace ip2loc

open ipstack

/-- The text `printRes` writes to standard output through `_stdout.Printf`. -/
def printRes (res : Response) : String :=
  let strs : List String := []
  -- ip/hostname
  let host :=
    if res.IP ≠ res.Hostname ∧ res.Hostname ≠ "" then res.IP ++ " / " ++ res.Hostname
    else res.IP
  -- other information
  let strs := if res.CountryName ≠ "" then strs ++ [res.CountryName] else strs
  let strs := if res.RegionName ≠ "" then strs ++ [res.RegionName] else strs
  let strs := if res.City ≠ "" then strs ++ [res.City] else strs
  -- print them
  if strs.length > 0 then host ++ " (" ++ strings.Join strs ", " ++ ")\n"
  else host ++ "\n"

end ip2loc

/-! ## What the specification says, in its own words -/

namespace Spec

open ipstack

/-- The base URL of a plan. -/
def base (c : Client) : String :=
  if c.free then "http://api.ipstack.com" else "https://api.ipstack.com"

/-- The host part of an output line: "ip / hostname" when the hostname is
non-empty and differs from the IP, the IP alone otherwise. -/
def host (res : Response) : String :=
  if res.Hostname ≠ "" ∧ res.Hostname ≠ res.IP then res.IP ++ " / " ++ res.Hostname
  else res.IP

/-- Those of country name, region name and city that are non-empty, in that order. -/
def places (res : Response) : List String :=
  [res.CountryName, res.RegionName, res.City].filter (fun s => s ≠ "")

/-- The output line of a result. -/
def line (res : Response) : String :=
  if places res = [] then host res
  else host res ++ " (" ++ ", ".intercalate (places res) ++ ")"

/-- The pieces of a text between the occurrences of a separator character. -/
def pieces (sep : Char) : List Char → List (List Char)
  | [] => [[]]
  | ch :: rest =>
    if ch = sep then [] :: pieces sep rest
    else
      match pieces sep rest with
      | [] => [[ch]]
      | w :: ws => (ch :: w) :: ws

/-- Splitting a string on a separator character. -/
def splitOn (s : String) (sep : Char) : List String :=
  (pieces sep s.data).map String.mk

/-- The part of a text before its first "?" or "#". -/
def beforeQuery (s : String) : String :=
  String.mk (s.data.takeWhile (fun ch => ch ≠ '?' ∧ ch ≠ '#'))

/-- The query parameters the client adds to every request: access key,
hostname=1, output=json and, on the premium plan, security=1. -/
def added (accessKey : String) (isFreePlan : Bool) : Values :=
  [("access_key", accessKey), ("hostname", "1"), ("output", "json")] ++
    (if isFreePlan then [] else [("security", "1")])

/-- One text occurs inside another. -/
def occursIn (part whole : String) : Prop :=
  part.data <:+: whole.data

/-- One text begins another. -/
def begins (part whole : String) : Prop :=
  part.data <+: whole.data

end Spec

namespace ipstack

/-- The URL parses, and the transport answers the request `get` builds for it
with a response of this status whose body is read without error as `body`. -/
def Env.answers (env : Env) (c : Client) (apiURL : String) (status : Int) (body : String) : Prop :=
  env.NewRequest apiURL = none ∧
    (env.Do (c.request env apiURL [] (some []))).1 = some ⟨status, (body, none)⟩

instance (env : Env) (c : Client) (apiURL : String) (status : Int) (body : String) :
    Decidable (env.answers c apiURL status body) := by
  unfold Env.answers
  exact inferInstance

end ipstack

/-! ## Example environments -/

namespace Examples

open ipstack

/-- An environment in which every URL parses, `query` is what the library finds
in a raw query, header keys are canonical as written, the transport answers
every request with `answer`, and the three decodings of the body served are
`one`, `many` and `errRes`. -/
def world (query : String → Values) (answer : Option HTTPResponse × Option GoError)
    (one : Response × Option GoError) (many : List Response × Option GoError)
    (errRes : ResponseError × Option GoError) : Env :=
  { NewRequest := fun _ => none
    ParseQuery := query
    CanonicalHeaderKey := fun k => k
    Do := fun _ => answer
    UnmarshalResponse := fun _ => one
    UnmarshalResponses := fun _ => many
    UnmarshalResponseError := fun _ => errRes }

/-- The decoding error of a body that is no JSON text. -/
def malformed : GoError := ⟨"invalid character N looking for beginning of value"⟩

/-- The server is not reached: the transport returns a nil response and an error. -/
def unreachable : Env :=
  world (fun _ => []) (none, some ⟨"dial tcp: lookup api.ipstack.com: no such host"⟩)
    ({}, none) ([], none) ({}, none)

/-- The server answers 404 with the body "Not Found". -/
def notFound : Env :=
  world (fun _ => []) (some ⟨404, ("Not Found", none)⟩, none)
    ({}, some malformed) ([], some malformed) ({}, some malformed)

/-- A body whose embedded error code is negative. -/
def negativeCodeBody : String :=
  "\x7b\"ip\":\"1.2.3.4\",\"error\":\x7b\"code\":-1,\"type\":\"t\",\"info\":\"i\"\x7d\x7d"

/-- The body `negativeCodeBody`, decoded. -/
def negativeCodeResponse : Response :=
  { IP := "1.2.3.4", Error := { Code := -1, Type_ := "t", Info := "i" } }

/-- The error of decoding a JSON object as a `[]Response`. -/
def objectNotArray : GoError :=
  ⟨"json: cannot unmarshal object into Go value of type []ipstack.Response"⟩

/-- The server answers 200 with `negativeCodeBody`. -/
def negativeCode : Env :=
  world (fun _ => []) (some ⟨200, (negativeCodeBody, none)⟩, none)
    (negativeCodeResponse, none) ([], some objectNotArray)
    (negativeCodeResponse.toResponseError, none)

/-- The error object the service sends for a bad access key. -/
def invalidKeyBody : String :=
  "\x7b\"success\":false,\"error\":\x7b\"code\":101,\"type\":\"invalid_access_key\",\"info\":\"bad key\"\x7d\x7d"

/-- The body `invalidKeyBody`, decoded. -/
def invalidKeyError : ResponseError :=
  { Success := false, Error := { Code := 101, Type_ := "invalid_access_key", Info := "bad key" } }

/-- The server answers 200 with `invalidKeyBody`. -/
def invalidKey : Env :=
  world (fun _ => []) (some ⟨200, (invalidKeyBody, none)⟩, none)
    ({ toResponseError := invalidKeyError }, none) ([], some objectNotArray)
    (invalidKeyError, none)

/-- A body that is a JSON string, neither an array nor an object. -/
def stringBody : String := "\"maintenance\""

/-- The error of decoding `stringBody` as a `[]Response`. -/
def notAnArray : GoError :=
  ⟨"json: cannot unmarshal string into Go value of type []ipstack.Response"⟩

/-- The error of decoding `stringBody` as a `ResponseError`. -/
def notAnErrorObject : GoError :=
  ⟨"json: cannot unmarshal string into Go value of type ipstack.ResponseError"⟩

/-- The server answers 200 with `stringBody`. -/
def maintenance : Env :=
  world (fun _ => []) (some ⟨200, (stringBody, none)⟩, none)
    ({}, some ⟨"json: cannot unmarshal string into Go value of type ipstack.Response"⟩)
    ([], some notAnArray) ({}, some notAnErrorObject)

/-- The library finds the parameter security=1 in the raw query "security=1",
and the one key "x,8.8.8.8" with an empty value in the raw query "x,8.8.8.8";
the server answers 404. -/
def queryInAddress : Env :=
  world
    (fun q =>
      if q = "security=1" then [("security", "1")]
      else if q = "x,8.8.8.8" then [("x,8.8.8.8", "")]
      else [])
    (some ⟨404, ("Not Found", none)⟩, none)
    ({}, some malformed) ([], some malformed) ({}, some malformed)

/-- The decoding error of an empty body. -/
def endOfInput : GoError := ⟨"unexpected end of JSON input"⟩

/-- The server answers 500 with `invalidKeyBody`; the decoders decode that
body as in `invalidKey` and fail on any other body. -/
def serverError : Env :=
  { NewRequest := fun _ => none
    ParseQuery := fun _ => []
    CanonicalHeaderKey := fun k => k
    Do := fun _ => (some ⟨500, (invalidKeyBody, none)⟩, none)
    UnmarshalResponse := fun b =>
      if b = invalidKeyBody then ({ toResponseError := invalidKeyError }, none)
      else ({}, some endOfInput)
    UnmarshalResponses := fun b =>
      if b = invalidKeyBody then ([], some objectNotArray) else ([], some endOfInput)
    UnmarshalResponseError := fun b =>
      if b = invalidKeyBody then (invalidKeyError, none) else ({}, some endOfInput) }

end Examples

/-! ## Lemmas on strings -/

namespace strings

theorem intercalate_go_cons (sep acc b : String) (rest : List String) :
    String.intercalate.go acc sep (b :: rest) = acc ++ sep ++ String.intercalate.go b sep rest := by
  induction rest generalizing acc b with
  | nil => simp [String.intercalate.go]
  | cons x xs ih =>
    rw [String.intercalate.go, ih, ih b]
    simp [String.append_assoc]

/-- The model of `strings.Join` is the library's `String.intercalate`. -/
theorem Join_eq_intercalate (xs : List String) (sep : String) :
    Join xs sep = sep.intercalate xs := by
  induction xs with
  | nil => rfl
  | cons a rest ih =>
    cases rest with
    | nil => simp [Join, String.intercalate, String.intercalate.go]
    | cons b r =>
      rw [Join, ih]
      simp [String.intercalate, intercalate_go_cons, String.append_assoc]

theorem append_left_cancel {a x y : String} (h : a ++ x = a ++ y) : x = y := by
  have hd := congrArg String.data h
  simp only [String.data_append, List.append_cancel_left_eq] at hd
  exact String.ext hd

theorem Join_cons_cons_data (a b : String) (r : List String) :
    (Join (a :: b :: r) ",").data = a.data ++ ',' :: (Join (b :: r) ",").data := by
  simp [Join, String.data_append]

theorem Cut_of_not_mem (sep : Char) (w : List Char) (h : sep ∉ w) : Cut sep w = (w, []) := by
  induction w with
  | nil => rfl
  | cons ch rest ih =>
    have hch : ch ≠ sep := fun e => h (by simp [e])
    have hrest : sep ∉ rest := fun m => h (List.mem_cons_of_mem _ m)
    simp [Cut, hch, ih hrest]

theorem Cut_append (sep : Char) (w rest : List Char) (h : sep ∉ w) :
    Cut sep (w ++ rest) = (w ++ (Cut sep rest).1, (Cut sep rest).2) := by
  induction w with
  | nil => simp
  | cons ch w ih =>
    have hch : ch ≠ sep := fun e => h (by simp [e])
    have hw : sep ∉ w := fun m => h (List.mem_cons_of_mem _ m)
    simp [Cut, hch, ih hw]

theorem mem_of_mem_Cut_fst (sep ch : Char) (l : List Char) (h : ch ∈ (Cut sep l).1) : ch ∈ l := by
  induction l with
  | nil => simp [Cut] at h
  | cons x rest ih =>
    by_cases hx : x = sep
    · simp [Cut, hx] at h
    · simp only [Cut, hx, if_false, List.mem_cons] at h ⊢
      rcases h with h | h
      · exact Or.inl h
      · exact Or.inr (ih h)

end strings

namespace url

/-- The URL text before query and fragment is the text before the first "?" or "#". -/
theorem Parse_SchemeHostPath (t : String) : (Parse t).SchemeHostPath = Spec.beforeQuery t := by
  unfold Parse Spec.beforeQuery
  simp only
  congr 1
  induction t.data with
  | nil => rfl
  | cons ch rest ih =>
    by_cases h1 : ch = '#'
    · simp [strings.Cut, h1]
    · by_cases h2 : ch = '?'
      · simp [strings.Cut, h2]
      · simp [strings.Cut, h1, h2, ih]

/-- A text without "?" and "#" put in front of a URL text stays in front of
its scheme, host and path; query and fragment are unchanged. -/
theorem Parse_append (p t : String) (hq : '?' ∉ p.data) (hf : '#' ∉ p.data) :
    Parse (p ++ t) =
      { SchemeHostPath := p ++ (Parse t).SchemeHostPath
        RawQuery := (Parse t).RawQuery
        Fragment := (Parse t).Fragment } := by
  unfold Parse
  simp only [String.data_append, strings.Cut_append _ _ _ hf, strings.Cut_append _ _ _ hq]
  rfl

/-- A text without "?" has an empty raw query. -/
theorem Parse_RawQuery_of_not_mem (t : String) (hq : '?' ∉ t.data) : (Parse t).RawQuery = "" := by
  unfold Parse
  have h : '?' ∉ (strings.Cut '#' t.data).1 := fun m => hq (strings.mem_of_mem_Cut_fst _ _ _ m)
  simp only [strings.Cut_of_not_mem _ _ h]

/-- A text without "?" and "#" is scheme, host and path, whole. -/
theorem Parse_clean (t : String) (hq : '?' ∉ t.data) (hf : '#' ∉ t.data) :
    Parse t = { SchemeHostPath := t, RawQuery := "", Fragment := "" } := by
  unfold Parse
  simp only [strings.Cut_of_not_mem _ _ hf, strings.Cut_of_not_mem _ _ hq]

end url

namespace Spec

open ipstack

theorem base_clean (c : Client) : '?' ∉ (base c ++ "/").data ∧ '#' ∉ (base c ++ "/").data := by
  unfold base
  cases c.free <;> decide

theorem pieces_clean (sep : Char) (w : List Char) (h : sep ∉ w) : pieces sep w = [w] := by
  induction w with
  | nil => rfl
  | cons ch rest ih =>
    have hch : ch ≠ sep := fun e => h (by simp [e])
    have hrest : sep ∉ rest := fun m => h (List.mem_cons_of_mem _ m)
    simp [pieces, hch, ih hrest]

theorem pieces_append (sep : Char) (w rest : List Char) (h : sep ∉ w) :
    pieces sep (w ++ sep :: rest) = w :: pieces sep rest := by
  induction w with
  | nil => simp [pieces]
  | cons ch w ih =>
    have hch : ch ≠ sep := fun e => h (by simp [e])
    have hw : sep ∉ w := fun m => h (List.mem_cons_of_mem _ m)
    simp [pieces, hch, ih hw]

theorem splitOn_Join (ips : List String) (hne : ips ≠ [])
    (hclean : ∀ a ∈ ips, ',' ∉ a.data) :
    splitOn (strings.Join ips ",") ',' = ips := by
  induction ips with
  | nil => exact absurd rfl hne
  | cons a rest ih =>
    cases rest with
    | nil =>
      have ha : ',' ∉ a.data := hclean a (by simp)
      simp [splitOn, strings.Join, pieces_clean _ _ ha]
    | cons b r =>
      have ha : ',' ∉ a.data := hclean a (by simp)
      have hrest := ih (by simp) (fun x hx => hclean x (List.mem_cons_of_mem _ hx))
      unfold splitOn at hrest ⊢
      rw [strings.Join_cons_cons_data, pieces_append _ _ _ ha]
      simp [hrest]

theorem not_in_Join (ch : Char) (hch : ch ≠ ',') (ips : List String)
    (hclean : ∀ a ∈ ips, ch ∉ a.data) :
    ch ∉ (strings.Join ips ",").data := by
  induction ips with
  | nil => simp [strings.Join]
  | cons a rest ih =>
    cases rest with
    | nil => simpa [strings.Join] using hclean a (by simp)
    | cons b r =>
      have ha : ch ∉ a.data := hclean a (by simp)
      have hrest := ih (fun x hx => hclean x (List.mem_cons_of_mem _ hx))
      rw [strings.Join_cons_cons_data]
      simp only [List.mem_append, List.mem_cons, not_or]
      exact ⟨ha, hch, hrest⟩

theorem occursIn_mid (pre part post : String) : occursIn part (pre ++ part ++ post) := by
  unfold occursIn
  exact ⟨pre.data, post.data, by simp [String.data_append]⟩

theorem begins_append (a b : String) : begins a (a ++ b) := by
  unfold begins
  exact ⟨b.data, by simp [String.data_append]⟩

theorem url_standard (c : Client) (ip : String) :
    (if c.free then apiBaseURLFree ++ "/" ++ ip else apiBaseURL ++ "/" ++ ip)
      = base c ++ "/" ++ ip := by
  unfold base apiBaseURLFree apiBaseURL
  cases c.free <;> rfl

theorem url_requester (c : Client) :
    (if c.free then apiBaseURLFree ++ "/check" else apiBaseURL ++ "/check")
      = base c ++ "/check" := by
  unfold base apiBaseURLFree apiBaseURL
  cases c.free <;> rfl

theorem url_bulk (ips : List String) :
    apiBaseURL ++ "/" ++ strings.Join ips ","
      = "https://api.ipstack.com/" ++ ",".intercalate ips := by
  rw [strings.Join_eq_intercalate]
  rfl

end Spec

/-! ## Lemmas on the client -/

namespace ipstack

/-- The log of `get`: the call itself, then the request when the URL parsed,
then the closing of the body when the response is not nil. -/
theorem Client.get_log (env : Env) (c : Client) (apiURL : String)
    (headers : GoMap String) (params : Option (GoMap Value)) :
    (c.get env apiURL headers params).log =
      Event.get apiURL ::
        (match env.NewRequest apiURL with
          | none =>
            Event.Do (c.request env apiURL headers params) ::
              (match (env.Do (c.request env apiURL headers params)).1 with
                | none => []
                | some _ => [Event.Close])
          | some _ => []) := by
  unfold Client.get
  cases env.NewRequest apiURL with
  | some e => rfl
  | none =>
    simp only
    cases (env.Do (c.request env apiURL headers params)).1 with
    | none => rfl
    | some resp =>
      simp only
      cases resp.Body.2 with
      | none => by_cases h : resp.StatusCode = 200 <;> simp [h]
      | some e => rfl

theorem Client.LookupStandard_log (env : Env) (c : Client) (ip : String) :
    (c.LookupStandard env ip).log =
      (c.get env (Spec.base c ++ "/" ++ ip) [] (some [])).log := by
  unfold Client.LookupStandard
  simp only [Spec.url_standard]
  split
  · rfl
  · split
    · split <;> rfl
    · rfl
  · rfl

theorem Client.LookupRequester_log (env : Env) (c : Client) :
    (c.LookupRequester env).log =
      (c.get env (Spec.base c ++ "/check") [] (some [])).log := by
  unfold Client.LookupRequester
  simp only [Spec.url_requester]
  split
  · rfl
  · split
    · split <;> rfl
    · rfl
  · rfl

theorem Client.LookupBulk_log (env : Env) (c : Client) (ips : List String)
    (hfree : c.free = false) :
    (c.LookupBulk env ips).log =
      (c.get env (apiBaseURL ++ "/" ++ strings.Join ips ",") [] (some [])).log := by
  unfold Client.LookupBulk
  simp only [hfree, Bool.false_eq_true, if_false]
  split
  · rfl
  · split
    · rfl
    · split <;> rfl
  · rfl

theorem Client.get_urls (env : Env) (c : Client) (apiURL : String)
    (headers : GoMap String) (params : Option (GoMap Value)) :
    (c.get env apiURL headers params).urls = [apiURL] := by
  unfold Ran.urls
  rw [Client.get_log]
  cases env.NewRequest apiURL with
  | some e => simp
  | none => cases (env.Do (c.request env apiURL headers params)).1 <;> simp

theorem Client.mem_get_requests (env : Env) (c : Client) (apiURL : String) (req : Request)
    (h : req ∈ (c.get env apiURL [] (some [])).requests) :
    req = c.request env apiURL [] (some []) := by
  unfold Ran.requests at h
  rw [Client.get_log] at h
  cases hn : env.NewRequest apiURL with
  | some e => simp [hn] at h
  | none =>
    cases hd : (env.Do (c.request env apiURL [] (some []))).1 <;> simp [hn, hd] at h <;> exact h

/-- The requests of `get`: the one it builds, when the URL parses. -/
theorem Client.get_requests (env : Env) (c : Client) (apiURL : String) :
    (c.get env apiURL [] (some [])).requests =
      (match env.NewRequest apiURL with
        | none => [c.request env apiURL [] (some [])]
        | some _ => []) := by
  unfold Ran.requests
  rw [Client.get_log]
  cases hn : env.NewRequest apiURL with
  | some e => simp
  | none => cases hd : (env.Do (c.request env apiURL [] (some []))).1 <;> simp

/-- What `get` returns when the transport answers with a response whose body
is read without error: the body when the status is 200, and otherwise an empty
body, in both cases with a nil error. -/
theorem Client.get_of_answers (env : Env) (c : Client) (apiURL : String) (status : Int)
    (body : String) (h : env.answers c apiURL status body) :
    c.get env apiURL [] (some []) =
      ⟨[.get apiURL, .Do (c.request env apiURL [] (some [])), .Close],
        .ok (if status = 200 then (body, none) else ("", none))⟩ := by
  unfold Client.get
  rw [h.1]
  simp only
  rw [h.2]
  simp only
  by_cases hs : status = 200 <;> simp [hs]

/-- What `get` does when the transport returns a nil response. -/
theorem Client.get_of_nil_response (env : Env) (c : Client) (apiURL : String)
    (hreq : env.NewRequest apiURL = none)
    (hnil : (env.Do (c.request env apiURL [] (some []))).1 = none) :
    (c.get env apiURL [] (some [])).out = .error .nilPointerDereference := by
  unfold Client.get
  rw [hreq]
  simp only
  rw [hnil]

/-- The request `get` builds for a URL text on a new client, without headers
and parameters of the caller. -/
theorem Client.request_eq (env : Env) (accessKey : String) (isFreePlan : Bool) (apiURL : String) :
    (NewClient accessKey isFreePlan).request env apiURL [] (some []) =
      ⟨"GET", (url.Parse apiURL).SchemeHostPath, [],
        env.Query (url.Parse apiURL).RawQuery ++ Spec.added accessKey isFreePlan⟩ := by
  have h1 : toString (1 : Int) = "1" := by decide
  cases isFreePlan <;>
    simp [Client.request, Client.params, NewClient, GoMap.set, Value.format, h1, Spec.added]

/-- The one request of `get` for a URL text that parses and that is a text
without "?" and "#" followed by any text. -/
theorem Client.get_requests_of_parsed (env : Env) (accessKey : String) (isFreePlan : Bool)
    (p t : String) (hq : '?' ∉ p.data) (hf : '#' ∉ p.data)
    (hparsed : env.NewRequest (p ++ t) = none) :
    ((NewClient accessKey isFreePlan).get env (p ++ t) [] (some [])).requests =
      [⟨"GET", p ++ Spec.beforeQuery t, [],
        env.Query (url.Parse t).RawQuery ++ Spec.added accessKey isFreePlan⟩] := by
  rw [Client.get_requests, hparsed]
  simp only
  rw [Client.request_eq, url.Parse_append p t hq hf, url.Parse_SchemeHostPath]

theorem Client.LookupStandard_requests (env : Env) (accessKey : String) (isFreePlan : Bool)
    (ip : String)
    (hparsed : env.NewRequest (Spec.base (NewClient accessKey isFreePlan) ++ "/" ++ ip) = none) :
    ((NewClient accessKey isFreePlan).LookupStandard env ip).requests =
      [⟨"GET", Spec.base (NewClient accessKey isFreePlan) ++ "/" ++ Spec.beforeQuery ip, [],
        env.Query (url.Parse ip).RawQuery ++ Spec.added accessKey isFreePlan⟩] := by
  have hlog : ((NewClient accessKey isFreePlan).LookupStandard env ip).requests
      = ((NewClient accessKey isFreePlan).get env
          (Spec.base (NewClient accessKey isFreePlan) ++ "/" ++ ip) [] (some [])).requests := by
    unfold Ran.requests
    rw [Client.LookupStandard_log]
  rw [hlog]
  exact Client.get_requests_of_parsed env accessKey isFreePlan _ ip
    (Spec.base_clean _).1 (Spec.base_clean _).2 hparsed

theorem Client.LookupRequester_requests (env : Env) (accessKey : String) (isFreePlan : Bool)
    (hparsed : env.NewRequest (Spec.base (NewClient accessKey isFreePlan) ++ "/check") = none) :
    ((NewClient accessKey isFreePlan).LookupRequester env).requests =
      [⟨"GET", Spec.base (NewClient accessKey isFreePlan) ++ "/check", [],
        Spec.added accessKey isFreePlan⟩] := by
  have hlog : ((NewClient accessKey isFreePlan).LookupRequester env).requests
      = ((NewClient accessKey isFreePlan).get env
          (Spec.base (NewClient accessKey isFreePlan) ++ "/check") [] (some [])).requests := by
    unfold Ran.requests
    rw [Client.LookupRequester_log]
  have hurl : Spec.base (NewClient accessKey isFreePlan) ++ "/check"
      = Spec.base (NewClient accessKey isFreePlan) ++ "/" ++ "check" := by
    rw [String.append_assoc]
    rfl
  rw [hlog, hurl]
  rw [hurl] at hparsed
  rw [Client.get_requests_of_parsed env accessKey isFreePlan _ "check"
    (Spec.base_clean _).1 (Spec.base_clean _).2 hparsed]
  have h1 : Spec.beforeQuery "check" = "check" := by decide
  have h2 : (url.Parse "check").RawQuery = "" := by decide
  simp [h1, h2, Env.Query]

theorem Client.LookupBulk_requests (env : Env) (accessKey : String) (ips : List String)
    (hparsed : env.NewRequest ("https://api.ipstack.com/" ++ ",".intercalate ips) = none) :
    ((NewClient accessKey false).LookupBulk env ips).requests =
      [⟨"GET", "https://api.ipstack.com/" ++ Spec.beforeQuery (",".intercalate ips), [],
        env.Query (url.Parse (",".intercalate ips)).RawQuery ++ Spec.added accessKey false⟩] := by
  have hlog : ((NewClient accessKey false).LookupBulk env ips).requests
      = ((NewClient accessKey false).get env
          ("https://api.ipstack.com/" ++ ",".intercalate ips) [] (some [])).requests := by
    unfold Ran.requests
    rw [Client.LookupBulk_log _ _ _ rfl, Spec.url_bulk]
  rw [hlog]
  exact Client.get_requests_of_parsed env accessKey false _ _ (by decide) (by decide) hparsed

end ipstack

/-! ## The claims -/

namespace ipstack

/-- C1: on a client constructed with isFreePlan = true, LookupBulk returns, for
every list of addresses (empty or not), the error "free plan does not support
bulk lookup" with an empty result list, and its log is empty: `get` is not
called and no request is handed to the transport. -/
theorem LookupBulk_free_plan_fails_before_get (env : Env) (accessKey : String)
    (ips : List String) :
    ((NewClient accessKey true).LookupBulk env ips).out =
        .ok ([], some ⟨"free plan does not support bulk lookup"⟩) ∧
      ((NewClient accessKey true).LookupBulk env ips).log = [] ∧
      ((NewClient accessKey true).LookupBulk env ips).urls = [] ∧
      ((NewClient accessKey true).LookupBulk env ips).requests = [] := by
  refine ⟨rfl, rfl, rfl, rfl⟩

/-- C2, the claim as stated fails: a body that decodes with the nonzero error
code -1 is returned as the result, with a nil error, by LookupStandard and by
LookupRequester. -/
theorem lookup_negative_code_succeeds :
    Examples.negativeCode.UnmarshalResponse Examples.negativeCodeBody
        = (Examples.negativeCodeResponse, none) ∧
      Examples.negativeCodeResponse.Error.Code ≠ 0 ∧
      ((NewClient "key" true).LookupStandard Examples.negativeCode "1.2.3.4").out
        = .ok (Examples.negativeCodeResponse, none) ∧
      ((NewClient "key" true).LookupRequester Examples.negativeCode).out
        = .ok (Examples.negativeCodeResponse, none) := by
  refine ⟨rfl, by decide, rfl, rfl⟩

/-- C2 (amended): for every response body that decodes successfully as the
single-result shape and whose embedded error code is greater than zero,
LookupStandard and LookupRequester, when `get` hands them that body, return the
zero Response and the error whose message is "error code: type (info)"; the
decimal code, the type and the info occur in that message. -/
theorem lookup_positive_code_fails (env : Env) (accessKey : String) (isFreePlan : Bool)
    (ip body : String) (r : Response)
    (hdec : env.UnmarshalResponse body = (r, none)) (hcode : r.Error.Code > 0) :
    (((NewClient accessKey isFreePlan).get env
          (Spec.base (NewClient accessKey isFreePlan) ++ "/" ++ ip) [] (some [])).out
          = .ok (body, none) →
        ((NewClient accessKey isFreePlan).LookupStandard env ip).out
          = .ok ({}, some ⟨"error " ++ toString r.Error.Code ++ ": " ++ r.Error.Type_
                            ++ " (" ++ r.Error.Info ++ ")"⟩)) ∧
      (((NewClient accessKey isFreePlan).get env
          (Spec.base (NewClient accessKey isFreePlan) ++ "/check") [] (some [])).out
          = .ok (body, none) →
        ((NewClient accessKey isFreePlan).LookupRequester env).out
          = .ok ({}, some ⟨"error " ++ toString r.Error.Code ++ ": " ++ r.Error.Type_
                            ++ " (" ++ r.Error.Info ++ ")"⟩)) ∧
      Spec.occursIn (toString r.Error.Code)
        ("error " ++ toString r.Error.Code ++ ": " ++ r.Error.Type_ ++ " (" ++ r.Error.Info ++ ")") ∧
      Spec.occursIn r.Error.Type_
        ("error " ++ toString r.Error.Code ++ ": " ++ r.Error.Type_ ++ " (" ++ r.Error.Info ++ ")") ∧
      Spec.occursIn r.Error.Info
        ("error " ++ toString r.Error.Code ++ ": " ++ r.Error.Type_ ++ " (" ++ r.Error.Info ++ ")") := by
  refine ⟨?_, ?_, ?_, ?_, ?_⟩
  · intro h
    unfold Client.LookupStandard
    simp only [Spec.url_standard]
    rw [h]
    simp only
    rw [hdec]
    simp [hcode, serviceError]
  · intro h
    unfold Client.LookupRequester
    simp only [Spec.url_requester]
    rw [h]
    simp only
    rw [hdec]
    simp [hcode, serviceError]
  · have := Spec.occursIn_mid "error " (toString r.Error.Code)
      (": " ++ r.Error.Type_ ++ " (" ++ r.Error.Info ++ ")")
    simpa [String.append_assoc] using this
  · have := Spec.occursIn_mid ("error " ++ toString r.Error.Code ++ ": ") r.Error.Type_
      (" (" ++ r.Error.Info ++ ")")
    simpa [String.append_assoc] using this
  · exact Spec.occursIn_mid
      ("error " ++ toString r.Error.Code ++ ": " ++ r.Error.Type_ ++ " (") r.Error.Info ")"

/-- C2, an instance: the error object of a bad access key, code 101, served
with status 200 to LookupStandard and to LookupRequester. -/
theorem lookup_positive_code_fails_witness :
    Examples.invalidKey.UnmarshalResponse Examples.invalidKeyBody
        = ({ toResponseError := Examples.invalidKeyError }, none) ∧
      Examples.invalidKeyError.Error.Code > 0 ∧
      ((NewClient "key" true).get Examples.invalidKey "http://api.ipstack.com/8.8.8.8" []
          (some [])).out = .ok (Examples.invalidKeyBody, none) ∧
      ((NewClient "key" true).LookupStandard Examples.invalidKey "8.8.8.8").out
        = .ok ({}, some ⟨"error 101: invalid_access_key (bad key)"⟩) ∧
      ((NewClient "key" true).LookupRequester Examples.invalidKey).out
        = .ok ({}, some ⟨"error 101: invalid_access_key (bad key)"⟩) :=
  ⟨rfl, by decide, rfl,
    (lookup_positive_code_fails Examples.invalidKey "key" true "8.8.8.8"
      Examples.invalidKeyBody { toResponseError := Examples.invalidKeyError }
      rfl (by decide)).1 rfl,
    (lookup_positive_code_fails Examples.invalidKey "key" true "8.8.8.8"
      Examples.invalidKeyBody { toResponseError := Examples.invalidKeyError }
      rfl (by decide)).2.1 rfl⟩

/-- C3, the code at a 404 answer whose body is read without error: `get`
returns an empty body and a nil error. -/
theorem get_status_404_returns_nil_error :
    Examples.notFound.answers (NewClient "key" true) "http://api.ipstack.com/8.8.8.8" 404
        "Not Found" ∧
      ((NewClient "key" true).get Examples.notFound "http://api.ipstack.com/8.8.8.8" []
          (some [])).out = .ok ("", none) := by
  refine ⟨by decide, rfl⟩

/-- C4, the claim as stated fails: on the free plan, the request LookupStandard
sends for the address "8.8.8.8?security=1" carries the parameter security=1 of
the address's own query string next to the ones `get` adds. -/
theorem LookupStandard_free_request_with_security :
    ((NewClient "key" true).LookupStandard Examples.queryInAddress "8.8.8.8?security=1").requests
      = [⟨"GET", "http://api.ipstack.com/8.8.8.8", [],
          [("security", "1"), ("access_key", "key"), ("hostname", "1"), ("output", "json")]⟩] := by
  decide

/-- C4 (amended): whenever the URL parses, each lookup operation sends exactly
one request. For every premium-plan client the request of LookupStandard, of
LookupRequester and of LookupBulk has a URL beginning with "https://" and query
parameters that include security=1. For every free-plan client the request of
LookupRequester has a URL beginning with "http://" and no security key among
its query parameters; the request of LookupStandard has a URL beginning with
"http://", and no security key among its query parameters provided the query
string the address itself carries holds none, in particular when the address
contains no "?". -/
theorem request_scheme_and_security (env : Env) (accessKey ip : String) (ips : List String) :
    (env.NewRequest ("https://api.ipstack.com/" ++ ip) = none →
      ∃ req, ((NewClient accessKey false).LookupStandard env ip).requests = [req] ∧
        Spec.begins "https://" req.URL ∧ ("security", "1") ∈ req.Query) ∧
    (env.NewRequest "https://api.ipstack.com/check" = none →
      ∃ req, ((NewClient accessKey false).LookupRequester env).requests = [req] ∧
        Spec.begins "https://" req.URL ∧ ("security", "1") ∈ req.Query) ∧
    (env.NewRequest ("https://api.ipstack.com/" ++ ",".intercalate ips) = none →
      ∃ req, ((NewClient accessKey false).LookupBulk env ips).requests = [req] ∧
        Spec.begins "https://" req.URL ∧ ("security", "1") ∈ req.Query) ∧
    (env.NewRequest "http://api.ipstack.com/check" = none →
      ∃ req, ((NewClient accessKey true).LookupRequester env).requests = [req] ∧
        Spec.begins "http://" req.URL ∧ ∀ kv ∈ req.Query, kv.1 ≠ "security") ∧
    (env.NewRequest ("http://api.ipstack.com/" ++ ip) = none →
      ∃ req, ((NewClient accessKey true).LookupStandard env ip).requests = [req] ∧
        Spec.begins "http://" req.URL ∧
        ((∀ kv ∈ env.Query (url.Parse ip).RawQuery, kv.1 ≠ "security") →
          ∀ kv ∈ req.Query, kv.1 ≠ "security") ∧
        ('?' ∉ ip.data → ∀ kv ∈ req.Query, kv.1 ≠ "security")) := by
  have hbeg : ∀ t : String, Spec.begins "https://" ("https://api.ipstack.com" ++ "/" ++ t) := by
    intro t
    have := Spec.begins_append "https://" ("api.ipstack.com/" ++ t)
    rw [← String.append_assoc] at this
    exact this
  have hbegFree : ∀ t : String, Spec.begins "http://" ("http://api.ipstack.com" ++ "/" ++ t) := by
    intro t
    have := Spec.begins_append "http://" ("api.ipstack.com/" ++ t)
    rw [← String.append_assoc] at this
    exact this
  have hadded : ∀ kv ∈ Spec.added accessKey true, kv.1 ≠ "security" := by
    intro kv hkv
    simp only [Spec.added, if_true, List.append_nil, List.mem_cons, List.mem_singleton,
      List.not_mem_nil, or_false] at hkv
    rcases hkv with hkv | hkv | hkv
    · rw [hkv]; show "access_key" ≠ "security"; decide
    · rw [hkv]; decide
    · rw [hkv]; decide
  refine ⟨?_, ?_, ?_, ?_, ?_⟩
  · intro h
    exact ⟨_, Client.LookupStandard_requests env accessKey false ip h, hbeg _,
      by simp [Spec.added]⟩
  · intro h
    exact ⟨_, Client.LookupRequester_requests env accessKey false h, hbeg "check",
      by simp [Spec.added]⟩
  · intro h
    exact ⟨_, Client.LookupBulk_requests env accessKey ips h, hbeg _, by simp [Spec.added]⟩
  · intro h
    exact ⟨_, Client.LookupRequester_requests env accessKey true h, hbegFree "check", hadded⟩
  · intro h
    refine ⟨_, Client.LookupStandard_requests env accessKey true ip h, hbegFree _, ?_, ?_⟩
    · intro hq kv hkv
      rcases List.mem_append.1 hkv with hkv | hkv
      · exact hq kv hkv
      · exact hadded kv hkv
    · intro hq kv hkv
      rw [url.Parse_RawQuery_of_not_mem ip hq] at hkv
      rcases List.mem_append.1 hkv with hkv | hkv
      · simp [Env.Query] at hkv
      · exact hadded kv hkv

/-- C4, an instance: the requests of the three operations on the premium plan
and of LookupRequester and LookupStandard on the free plan, in an environment
in which every URL parses. -/
theorem request_scheme_and_security_witness :
    (∃ req, ((NewClient "key" false).LookupStandard Examples.notFound "8.8.8.8").requests = [req] ∧
        Spec.begins "https://" req.URL ∧ ("security", "1") ∈ req.Query) ∧
    (∃ req, ((NewClient "key" false).LookupRequester Examples.notFound).requests = [req] ∧
        Spec.begins "https://" req.URL ∧ ("security", "1") ∈ req.Query) ∧
    (∃ req, ((NewClient "key" false).LookupBulk Examples.notFound
          ["1.1.1.1", "8.8.8.8"]).requests = [req] ∧
        Spec.begins "https://" req.URL ∧ ("security", "1") ∈ req.Query) ∧
    (∃ req, ((NewClient "key" true).LookupRequester Examples.notFound).requests = [req] ∧
        Spec.begins "http://" req.URL ∧ ∀ kv ∈ req.Query, kv.1 ≠ "security") ∧
    (∃ req, ((NewClient "key" true).LookupStandard Examples.notFound "8.8.8.8").requests = [req] ∧
        Spec.begins "http://" req.URL ∧ ∀ kv ∈ req.Query, kv.1 ≠ "security") :=
  ⟨(request_scheme_and_security Examples.notFound "key" "8.8.8.8" ["1.1.1.1", "8.8.8.8"]).1 rfl,
    (request_scheme_and_security Examples.notFound "key" "8.8.8.8" ["1.1.1.1", "8.8.8.8"]).2.1 rfl,
    (request_scheme_and_security Examples.notFound "key" "8.8.8.8" ["1.1.1.1", "8.8.8.8"]).2.2.1 rfl,
    (request_scheme_and_security Examples.notFound "key" "8.8.8.8" ["1.1.1.1", "8.8.8.8"]).2.2.2.1
      rfl,
    ((request_scheme_and_security Examples.notFound "key" "8.8.8.8"
        ["1.1.1.1", "8.8.8.8"]).2.2.2.2 rfl).imp
      (fun _ h => ⟨h.1, h.2.1, h.2.2.2 (by decide)⟩)⟩

/-- C5, the code when the transport returns an error and a nil response:
`get` reads `resp.Body` of the nil response and the run ends in a nil pointer
dereference, not in a returned error. -/
theorem get_nil_response_is_dereferenced :
    Examples.unreachable.Do ((NewClient "key" true).request Examples.unreachable
          "http://api.ipstack.com/8.8.8.8" [] (some []))
        = (none, some ⟨"dial tcp: lookup api.ipstack.com: no such host"⟩) ∧
      ((NewClient "key" true).get Examples.unreachable "http://api.ipstack.com/8.8.8.8" []
          (some [])).out = .error .nilPointerDereference ∧
      ((NewClient "key" true).LookupStandard Examples.unreachable "8.8.8.8").out
          = .error .nilPointerDereference := by
  refine ⟨rfl, rfl, rfl⟩

/-- C6, the claim as stated fails: a response body that does not decode as a
sequence of results but decodes as a ServiceError, served with status 500, is
not handed on by `get`; LookupBulk decodes an empty body instead and returns
the error of that decode, not the formatted error. -/
theorem LookupBulk_status_500_no_fallback :
    Examples.serverError.answers (NewClient "key" false)
        ("https://api.ipstack.com/" ++ ",".intercalate ["1.1.1.1", "8.8.8.8"]) 500
        Examples.invalidKeyBody ∧
      Examples.serverError.UnmarshalResponses Examples.invalidKeyBody
        = ([], some Examples.objectNotArray) ∧
      Examples.serverError.UnmarshalResponseError Examples.invalidKeyBody
        = (Examples.invalidKeyError, none) ∧
      ((NewClient "key" false).LookupBulk Examples.serverError ["1.1.1.1", "8.8.8.8"]).out
        = .ok ([], some ⟨"unexpected end of JSON input"⟩) ∧
      (⟨"unexpected end of JSON input"⟩ : GoError)
        ≠ ⟨"error 101: invalid_access_key (bad key)"⟩ := by
  refine ⟨by decide, rfl, rfl, rfl, by decide⟩

/-- C6 (amended): for every premium-plan client and every response body that
`get` hands back to LookupBulk (the body of a response with status 200), if it
does not decode as a sequence of results but decodes as a ServiceError with
code c, type t and info i, LookupBulk returns an empty result list and the
error "error c: t (i)", not the error of the failed array decode. -/
theorem LookupBulk_service_error_fallback (env : Env) (accessKey : String)
    (ips : List String) (body : String) (decoded : List Response) (arrayErr : GoError)
    (errRes : ResponseError)
    (hget : ((NewClient accessKey false).get env
      ("https://api.ipstack.com/" ++ ",".intercalate ips) [] (some [])).out = .ok (body, none))
    (hmany : env.UnmarshalResponses body = (decoded, some arrayErr))
    (herr : env.UnmarshalResponseError body = (errRes, none)) :
    ((NewClient accessKey false).LookupBulk env ips).out =
      .ok ([], some ⟨"error " ++ toString errRes.Error.Code ++ ": " ++ errRes.Error.Type_
                      ++ " (" ++ errRes.Error.Info ++ ")"⟩) := by
  have hfree : (NewClient accessKey false).free = false := rfl
  unfold Client.LookupBulk
  simp only [hfree, Bool.false_eq_true, if_false, Spec.url_bulk]
  rw [hget]
  simp only
  rw [hmany]
  simp only
  rw [herr]
  simp [serviceError]

/-- C6, an instance: the error object of a bad access key, served with status 200. -/
theorem LookupBulk_service_error_fallback_witness :
    ((NewClient "key" false).get Examples.invalidKey
        ("https://api.ipstack.com/" ++ ",".intercalate ["1.1.1.1", "8.8.8.8"]) []
        (some [])).out = .ok (Examples.invalidKeyBody, none) ∧
      Examples.invalidKey.UnmarshalResponses Examples.invalidKeyBody
        = ([], some Examples.objectNotArray) ∧
      Examples.invalidKey.UnmarshalResponseError Examples.invalidKeyBody
        = (Examples.invalidKeyError, none) ∧
      ((NewClient "key" false).LookupBulk Examples.invalidKey ["1.1.1.1", "8.8.8.8"]).out =
        .ok ([], some ⟨"error 101: invalid_access_key (bad key)"⟩) :=
  ⟨rfl, rfl, rfl,
    LookupBulk_service_error_fallback Examples.invalidKey "key" ["1.1.1.1", "8.8.8.8"]
      Examples.invalidKeyBody [] Examples.objectNotArray Examples.invalidKeyError rfl rfl rfl⟩

/-- C7, the claim as stated fails: when both decodes fail, LookupBulk returns
the error of the second decode (as a ServiceError), which is not the error of
the first decode (as a sequence). -/
theorem LookupBulk_returns_second_decode_error :
    Examples.maintenance.UnmarshalResponses Examples.stringBody
        = ([], some Examples.notAnArray) ∧
      Examples.maintenance.UnmarshalResponseError Examples.stringBody
        = ({}, some Examples.notAnErrorObject) ∧
      ((NewClient "key" false).LookupBulk Examples.maintenance ["1.1.1.1", "8.8.8.8"]).out
        = .ok ([], some Examples.notAnErrorObject) ∧
      Examples.notAnErrorObject ≠ Examples.notAnArray := by
  refine ⟨rfl, rfl, rfl, by decide⟩

/-- C7 (amended): for every premium-plan client and every response body, handed
back by `get`, for which both the decode as a sequence of results and the
decode as a ServiceError fail, LookupBulk returns an empty result list and the
error of the second decode attempt, the one as a ServiceError. -/
theorem LookupBulk_both_decodes_fail (env : Env) (accessKey : String)
    (ips : List String) (body : String) (decoded : List Response) (arrayErr : GoError)
    (errRes : ResponseError) (objectErr : GoError)
    (hget : ((NewClient accessKey false).get env
      ("https://api.ipstack.com/" ++ ",".intercalate ips) [] (some [])).out = .ok (body, none))
    (hmany : env.UnmarshalResponses body = (decoded, some arrayErr))
    (herr : env.UnmarshalResponseError body = (errRes, some objectErr)) :
    ((NewClient accessKey false).LookupBulk env ips).out = .ok ([], some objectErr) := by
  have hfree : (NewClient accessKey false).free = false := rfl
  unfold Client.LookupBulk
  simp only [hfree, Bool.false_eq_true, if_false, Spec.url_bulk]
  rw [hget]
  simp only
  rw [hmany]
  simp only
  rw [herr]

/-- C7, an instance: a body that is a JSON string, served with status 200. -/
theorem LookupBulk_both_decodes_fail_witness :
    ((NewClient "key" false).get Examples.maintenance
        ("https://api.ipstack.com/" ++ ",".intercalate ["1.1.1.1"]) [] (some [])).out
        = .ok (Examples.stringBody, none) ∧
      ((NewClient "key" false).LookupBulk Examples.maintenance ["1.1.1.1"]).out
        = .ok ([], some Examples.notAnErrorObject) :=
  ⟨rfl,
    LookupBulk_both_decodes_fail Examples.maintenance "key" ["1.1.1.1"] Examples.stringBody
      [] Examples.notAnArray {} Examples.notAnErrorObject rfl rfl rfl⟩

/-- C9, the claim as stated fails: for the addresses "check", "check?" and
"check#x" LookupStandard sends the very request LookupRequester sends. -/
theorem LookupStandard_check_is_LookupRequester :
    ((NewClient "key" true).LookupRequester Examples.notFound).requests
        = [⟨"GET", "http://api.ipstack.com/check", [],
            [("access_key", "key"), ("hostname", "1"), ("output", "json")]⟩] ∧
      ((NewClient "key" true).LookupStandard Examples.notFound "check").requests
        = ((NewClient "key" true).LookupRequester Examples.notFound).requests ∧
      ((NewClient "key" true).LookupStandard Examples.notFound "check?").requests
        = ((NewClient "key" true).LookupRequester Examples.notFound).requests ∧
      ((NewClient "key" true).LookupStandard Examples.notFound "check#x").requests
        = ((NewClient "key" true).LookupRequester Examples.notFound).requests := by
  decide

/-- C9 (amended): for every plan and every address, LookupRequester gives the
URL text base/check to get and LookupStandard gives it base/address. When the
text parses, LookupRequester sends one request, to base/check with the
client's parameters, and LookupStandard sends one request, to base/ followed
by the address up to its first "?" or "#", with the parameters of the
address's own query string followed by the client's. When both parse, the two
requests are the same exactly when the address up to its first "?" or "#" is
"check" and its own query string holds no parameter; otherwise they differ. -/
theorem lookup_urls_check_or_address (env : Env) (accessKey : String) (isFreePlan : Bool)
    (ip : String) :
    ((NewClient accessKey isFreePlan).LookupRequester env).urls
        = [Spec.base (NewClient accessKey isFreePlan) ++ "/check"] ∧
      ((NewClient accessKey isFreePlan).LookupStandard env ip).urls
        = [Spec.base (NewClient accessKey isFreePlan) ++ "/" ++ ip] ∧
      (env.NewRequest (Spec.base (NewClient accessKey isFreePlan) ++ "/check") = none →
        ((NewClient accessKey isFreePlan).LookupRequester env).requests
          = [⟨"GET", Spec.base (NewClient accessKey isFreePlan) ++ "/check", [],
              Spec.added accessKey isFreePlan⟩]) ∧
      (env.NewRequest (Spec.base (NewClient accessKey isFreePlan) ++ "/" ++ ip) = none →
        ((NewClient accessKey isFreePlan).LookupStandard env ip).requests
          = [⟨"GET", Spec.base (NewClient accessKey isFreePlan) ++ "/" ++ Spec.beforeQuery ip, [],
              env.Query (url.Parse ip).RawQuery ++ Spec.added accessKey isFreePlan⟩]) ∧
      (env.NewRequest (Spec.base (NewClient accessKey isFreePlan) ++ "/check") = none →
        env.NewRequest (Spec.base (NewClient accessKey isFreePlan) ++ "/" ++ ip) = none →
        (((NewClient accessKey isFreePlan).LookupStandard env ip).requests
            = ((NewClient accessKey isFreePlan).LookupRequester env).requests ↔
          Spec.beforeQuery ip = "check" ∧ env.Query (url.Parse ip).RawQuery = [])) := by
  have hr : ((NewClient accessKey isFreePlan).LookupRequester env).urls
      = [Spec.base (NewClient accessKey isFreePlan) ++ "/check"] := by
    unfold Ran.urls
    rw [Client.LookupRequester_log]
    exact Client.get_urls _ _ _ _ _
  have hs : ((NewClient accessKey isFreePlan).LookupStandard env ip).urls
      = [Spec.base (NewClient accessKey isFreePlan) ++ "/" ++ ip] := by
    unfold Ran.urls
    rw [Client.LookupStandard_log]
    exact Client.get_urls _ _ _ _ _
  refine ⟨hr, hs, Client.LookupRequester_requests env accessKey isFreePlan,
    Client.LookupStandard_requests env accessKey isFreePlan ip, ?_⟩
  intro h1 h2
  rw [Client.LookupStandard_requests env accessKey isFreePlan ip h2,
    Client.LookupRequester_requests env accessKey isFreePlan h1]
  constructor
  · intro h
    have hreq := List.head_eq_of_cons_eq h
    have hurl := congrArg Request.URL hreq
    have hquery := congrArg Request.Query hreq
    simp only at hurl hquery
    have hurl2 : Spec.base (NewClient accessKey isFreePlan) ++ ("/" ++ Spec.beforeQuery ip)
        = Spec.base (NewClient accessKey isFreePlan) ++ ("/" ++ "check") := by
      simpa [String.append_assoc] using hurl
    exact ⟨strings.append_left_cancel (strings.append_left_cancel hurl2),
      List.append_left_eq_self.1 hquery⟩
  · rintro ⟨hpath, hquery⟩
    rw [hpath, hquery]
    simp [String.append_assoc]

/-- C9, an instance: on the free plan the request for the address "8.8.8.8" is
not the request of LookupRequester. -/
theorem lookup_urls_check_or_address_witness :
    Examples.notFound.NewRequest (Spec.base (NewClient "key" true) ++ "/check") = none ∧
      Examples.notFound.NewRequest (Spec.base (NewClient "key" true) ++ "/" ++ "8.8.8.8") = none ∧
      ((NewClient "key" true).LookupRequester Examples.notFound).requests
        = [⟨"GET", Spec.base (NewClient "key" true) ++ "/check", [], Spec.added "key" true⟩] ∧
      ((NewClient "key" true).LookupStandard Examples.notFound "8.8.8.8").requests
        = [⟨"GET", Spec.base (NewClient "key" true) ++ "/" ++ Spec.beforeQuery "8.8.8.8", [],
            Examples.notFound.Query (url.Parse "8.8.8.8").RawQuery ++ Spec.added "key" true⟩] ∧
      ((NewClient "key" true).LookupStandard Examples.notFound "8.8.8.8").requests
        ≠ ((NewClient "key" true).LookupRequester Examples.notFound).requests :=
  ⟨rfl, rfl,
    (lookup_urls_check_or_address Examples.notFound "key" true "8.8.8.8").2.2.1 rfl,
    (lookup_urls_check_or_address Examples.notFound "key" true "8.8.8.8").2.2.2.1 rfl,
    fun h => absurd
      (((lookup_urls_check_or_address Examples.notFound "key" true "8.8.8.8").2.2.2.2
        rfl rfl).1 h).1 (by decide)⟩

/-- C10, the claim as stated fails: for the empty list the joined string is
empty, and splitting it on "," gives one empty address, not the empty list;
and for the addresses "1.1.1.1?x" and "8.8.8.8", which contain no "/" and no
",", the request goes to "https://api.ipstack.com/1.1.1.1": the joined string
is not a path segment of it, what follows the "?" is sent as a query
parameter. -/
theorem joined_addresses_not_one_segment :
    (∀ a ∈ ([] : List String), '/' ∉ a.data ∧ ',' ∉ a.data) ∧
      Spec.splitOn (",".intercalate []) ',' = [""] ∧
      Spec.splitOn (",".intercalate []) ',' ≠ [] ∧
      (∀ a ∈ (["1.1.1.1?x", "8.8.8.8"] : List String), '/' ∉ a.data ∧ ',' ∉ a.data) ∧
      ((NewClient "key" false).LookupBulk Examples.queryInAddress
          ["1.1.1.1?x", "8.8.8.8"]).requests
        = [⟨"GET", "https://api.ipstack.com/1.1.1.1", [],
            [("x,8.8.8.8", ""), ("access_key", "key"), ("hostname", "1"), ("output", "json"),
              ("security", "1")]⟩] := by
  refine ⟨by simp, by decide, by decide, by decide, by decide⟩

/-- C10 (amended): for every premium-plan client and every list of addresses,
LookupBulk gives get the URL text "https://api.ipstack.com/" followed by the
addresses in their input order joined with ","; when that text parses, one
request is sent, to the text up to its first "?" or "#". When the list is not
empty and no address contains "/", ",", "?" or "#", the request goes to
"https://api.ipstack.com/" followed by the whole joined string and carries
only the client's query parameters, the joined string contains no "/" (it is
the single path segment of the request), and splitting it on "," gives back
the input list. -/
theorem LookupBulk_url_joins_addresses (env : Env) (accessKey : String) (ips : List String) :
    ((NewClient accessKey false).LookupBulk env ips).urls
        = ["https://api.ipstack.com/" ++ ",".intercalate ips] ∧
      (env.NewRequest ("https://api.ipstack.com/" ++ ",".intercalate ips) = none →
        ((NewClient accessKey false).LookupBulk env ips).requests
          = [⟨"GET", "https://api.ipstack.com/" ++ Spec.beforeQuery (",".intercalate ips), [],
              env.Query (url.Parse (",".intercalate ips)).RawQuery
                ++ Spec.added accessKey false⟩]) ∧
      (ips ≠ [] →
        (∀ a ∈ ips, '/' ∉ a.data ∧ ',' ∉ a.data ∧ '?' ∉ a.data ∧ '#' ∉ a.data) →
        (env.NewRequest ("https://api.ipstack.com/" ++ ",".intercalate ips) = none →
          ((NewClient accessKey false).LookupBulk env ips).requests
            = [⟨"GET", "https://api.ipstack.com/" ++ ",".intercalate ips, [],
                Spec.added accessKey false⟩]) ∧
        '/' ∉ (",".intercalate ips).data ∧
        Spec.splitOn (",".intercalate ips) ',' = ips) := by
  refine ⟨?_, Client.LookupBulk_requests env accessKey ips, ?_⟩
  · unfold Ran.urls
    rw [Client.LookupBulk_log _ _ _ rfl, Spec.url_bulk]
    exact Client.get_urls _ _ _ _ _
  · intro hne hclean
    have hq : '?' ∉ (",".intercalate ips).data := by
      rw [← strings.Join_eq_intercalate]
      exact Spec.not_in_Join '?' (by decide) ips (fun a ha => (hclean a ha).2.2.1)
    have hf : '#' ∉ (",".intercalate ips).data := by
      rw [← strings.Join_eq_intercalate]
      exact Spec.not_in_Join '#' (by decide) ips (fun a ha => (hclean a ha).2.2.2)
    refine ⟨?_, ?_, ?_⟩
    · intro hparsed
      rw [Client.LookupBulk_requests env accessKey ips hparsed, ← url.Parse_SchemeHostPath,
        url.Parse_clean _ hq hf]
      simp [Env.Query]
    · rw [← strings.Join_eq_intercalate]
      exact Spec.not_in_Join '/' (by decide) ips (fun a ha => (hclean a ha).1)
    · rw [← strings.Join_eq_intercalate]
      exact Spec.splitOn_Join ips hne (fun a ha => (hclean a ha).2.1)

/-- C10, an instance: two addresses. -/
theorem LookupBulk_url_joins_addresses_witness :
    Examples.notFound.NewRequest
        ("https://api.ipstack.com/" ++ ",".intercalate ["1.1.1.1", "8.8.8.8"]) = none ∧
      (["1.1.1.1", "8.8.8.8"] : List String) ≠ [] ∧
      (∀ a ∈ (["1.1.1.1", "8.8.8.8"] : List String),
        '/' ∉ a.data ∧ ',' ∉ a.data ∧ '?' ∉ a.data ∧ '#' ∉ a.data) ∧
      ((NewClient "key" false).LookupBulk Examples.notFound ["1.1.1.1", "8.8.8.8"]).urls
        = ["https://api.ipstack.com/" ++ ",".intercalate ["1.1.1.1", "8.8.8.8"]] ∧
      ((NewClient "key" false).LookupBulk Examples.notFound ["1.1.1.1", "8.8.8.8"]).requests
        = [⟨"GET", "https://api.ipstack.com/" ++ ",".intercalate ["1.1.1.1", "8.8.8.8"], [],
            Spec.added "key" false⟩] ∧
      '/' ∉ (",".intercalate ["1.1.1.1", "8.8.8.8"]).data ∧
      Spec.splitOn (",".intercalate ["1.1.1.1", "8.8.8.8"]) ',' = ["1.1.1.1", "8.8.8.8"] :=
  ⟨rfl, by decide, by decide,
    (LookupBulk_url_joins_addresses Examples.notFound "key" ["1.1.1.1", "8.8.8.8"]).1,
    ((LookupBulk_url_joins_addresses Examples.notFound "key" ["1.1.1.1", "8.8.8.8"]).2.2
      (by decide) (by decide)).1 rfl,
    ((LookupBulk_url_joins_addresses Examples.notFound "key" ["1.1.1.1", "8.8.8.8"]).2.2
      (by decide) (by decide)).2⟩

end ipstack

namespace ip2loc

open ipstack

/-- C8: for every result, printRes writes the line of the specification (the
host, then in parentheses those of country name, region name and city that are
non-empty, joined by ", ", or the host alone when all three are empty; the host
is "ip / hostname" when the hostname is non-empty and differs from the IP and
the IP alone otherwise) followed by a newline; and IP 1.2.3.4 with empty
hostname, country Germany, empty region and city Berlin gives
"1.2.3.4 (Germany, Berlin)". -/
theorem printRes_writes_the_line :
    (∀ res : Response, printRes res = Spec.line res ++ "\n") ∧
      printRes { IP := "1.2.3.4", Hostname := "", CountryName := "Germany",
                 RegionName := "", City := "Berlin" }
        = "1.2.3.4 (Germany, Berlin)" ++ "\n" := by
  refine ⟨fun res => ?_, by decide⟩
  unfold printRes Spec.line Spec.places Spec.host
  by_cases h1 : res.CountryName = "" <;> by_cases h2 : res.RegionName = "" <;>
    by_cases h3 : res.City = "" <;> by_cases h4 : res.Hostname = "" <;>
    by_cases h5 : res.Hostname = res.IP <;>
    simp [h1, h2, h3, h4, h5, Ne.symm, strings.Join, String.intercalate, String.intercalate.go,
      String.append_assoc]

end ip2loc
